import Mathlib

/-
Verification of the fastapi-assets validation chains.

The development shallowly embeds the validator classes of the repository:
`CookieAssert` (src/fastapi_assets/validators/cookie_validator.py),
`HeaderValidator` (src/fastapi_assets/validators/header_validator.py),
`PathValidator` (src/fastapi_assets/request_validators/path_assert.py) and
`BaseValidator._raise_error` (src/fastapi_assets/core/base_validator.py),
together with the aspect-ratio parsing of
`ImageValidator._parse_aspect_ratios` (src/fastapi_assets/validators/image_validator.py).

Modelling conventions:
- Python numbers (the `float` results of coercing cookie values, and the
  configured `gt`/`ge`/`lt`/`le` bounds) are modelled as rationals.  The
  decimal literals exercised by the repository are exact in this model.
- A compiled regular expression (`re.compile`) is modelled by its matching
  semantics: a function telling whether the pattern matches at a given start
  position of the subject.  `re.Pattern.match` asks for a match at position
  0, `re.Pattern.search` for a match at some position.  Compilation itself
  is an external library call and is passed in as a parameter.
- Python exceptions that the code raises and catches are modelled as
  explicit error values; the control flow of every try/except block is
  traced statement by statement.
- Optional string parameters follow Python truthiness (`None` and `""` are
  falsy) wherever the source tests them with `or` / `if`.
-/

/-- A Python value as far as the validators inspect one: a string, an int,
a float (modelled as a rational), or `None`. -/
inductive PyValue where
  | str (s : String)
  | int (i : Int)
  | num (q : ℚ)
  | pyNone
  deriving Repr, DecidableEq

/-- Python `==` on the modelled values: numbers compare across `int`/`float`,
strings only to equal strings — `"2"` and `2` are distinct. -/
def pyEq : PyValue → PyValue → Bool
  | PyValue.str a, PyValue.str b => a == b
  | PyValue.int a, PyValue.int b => a == b
  | PyValue.num a, PyValue.num b => a == b
  | PyValue.int a, PyValue.num b => (a : ℚ) == b
  | PyValue.num a, PyValue.int b => a == (b : ℚ)
  | PyValue.pyNone, PyValue.pyNone => true
  | _, _ => false

/-- Rendering of a rational in an error message.  Approximates Python
`str()` on the int/float numbers the messages interpolate; the claims under
verification depend only on which message template fires, not on the digits. -/
def ratStr (q : ℚ) : String :=
  if q.den = 1 then toString q.num else toString q.num ++ "/" ++ toString q.den

/-- Python `str()` of the modelled values, used when the source interpolates
a value into an error message. -/
def pyStr : PyValue → String
  | PyValue.str s => s
  | PyValue.int i => toString i
  | PyValue.num q => ratStr q
  | PyValue.pyNone => "None"

/-- Python `isinstance(value, (int, float))`, returning the numeric value. -/
def pyNum? : PyValue → Option ℚ
  | PyValue.int i => some (i : ℚ)
  | PyValue.num q => some q
  | _ => none

/-- The transport-level error: FastAPI `HTTPException(status_code, detail)`. -/
structure HTTPError where
  status_code : Int
  detail : String
  deriving Repr, DecidableEq

/-- The library's internal `ValidationError(detail, status_code)` payload. -/
structure VErr where
  detail : String
  status_code : Int
  deriving Repr, DecidableEq

/-- What escapes a validator call: an `HTTPException`, or an uncaught Python
`TypeError` (raised when a method is called with a required positional
argument missing). -/
inductive PyError where
  | http (e : HTTPError)
  | typeError
  deriving Repr, DecidableEq

/-- Construction-time `ValueError`s of the validator constructors. -/
inductive ConfigError where
  | patternAndFormat
  | unknownFormat (f : String)
  | badAspectRatio (r : String)
  deriving Repr, DecidableEq

/-- Behaviour of a user-supplied custom predicate on one value: it returns
(with the given truthiness) or raises an exception whose `str()` is `msg`. -/
inductive CustomResult where
  | ret (truthy : Bool)
  | exn (msg : String)
  deriving Repr, DecidableEq

/-- A compiled regular expression (`re.Pattern`), modelled by its source
string (the `.pattern` attribute) and its matching semantics: `matchAt cs i`
holds iff the pattern matches the subject `cs` starting at position `i`. -/
structure CompiledRegex where
  source : String
  matchAt : List Char → Nat → Bool

/-- Python `re.Pattern.match`: the pattern must match at position 0
(prefix-anchored; the match need not span the whole subject). -/
def re_match (r : CompiledRegex) (s : String) : Bool :=
  r.matchAt s.toList 0

/-- Python `re.Pattern.search`: the pattern may match at any position. -/
def re_search (r : CompiledRegex) (s : String) : Bool :=
  (List.range (s.toList.length + 1)).any (r.matchAt s.toList)

/-- The compiled form of a metacharacter-free (literal) pattern: it matches
at position `i` iff the literal occurs there. -/
def litRegex (lit : String) : CompiledRegex :=
  { source := lit, matchAt := fun cs i => lit.toList.isPrefixOf (cs.drop i) }

/-- Python truthiness of an optional string: `None` and `""` are falsy. -/
def strTruthy : Option String → Bool
  | none => false
  | some s => !(s == "")

/-- Python `a or b` on optional strings (used for `regex or pattern`). -/
def pyOrStr (a b : Option String) : Option String :=
  if strTruthy a then a else b

/-- Value of a list of decimal digit characters. -/
def digitsVal (l : List Char) : Nat :=
  l.foldl (fun a c => a * 10 + (c.toNat - 48)) 0

/-- Decimal-literal shape of a string: sign, mantissa digits and number of
fractional digits.  Accepts the forms Python `float()` accepts for plain
decimal literals: `"10"`, `"10."`, `".5"`, `"-3.25"`, `"+7"`. -/
def pyDecimal? (s : String) : Option (Bool × Nat × Nat) :=
  let cs := s.toList
  let signed : Bool × List Char :=
    match cs with
    | '-' :: r => (true, r)
    | '+' :: r => (false, r)
    | _ => (false, cs)
  let ip := signed.2.takeWhile Char.isDigit
  let rest := signed.2.dropWhile Char.isDigit
  match rest with
  | [] => if ip.isEmpty then none else some (signed.1, digitsVal ip, 0)
  | '.' :: fp =>
    if fp.all Char.isDigit && !(ip.isEmpty && fp.isEmpty) then
      some (signed.1, digitsVal (ip ++ fp), fp.length)
    else none
  | _ => none

/-- The rational denoted by a parsed decimal literal. -/
def decToRat (t : Bool × Nat × Nat) : ℚ :=
  let m : ℚ := (t.2.1 : ℚ)
  let v : ℚ := if t.2.2 = 0 then m else m / 10 ^ t.2.2
  if t.1 then -v else v

/-- Model of Python `float(str)` restricted to plain decimal literals.
Exponent notation, `inf`/`nan`, underscores and surrounding whitespace are
outside the model; none of the verified claims exercise them. -/
def pyFloat? (s : String) : Option ℚ :=
  (pyDecimal? s).map decToRat

/-- Model of Python `int(str)` restricted to plain decimal integer
literals: optional sign, then one or more digits. -/
def pyInt? (s : String) : Option Int :=
  let cs := s.toList
  let signed : Bool × List Char :=
    match cs with
    | '-' :: r => (true, r)
    | '+' :: r => (false, r)
    | _ => (false, cs)
  if signed.2.isEmpty || !(signed.2.all Char.isDigit) then none
  else some (if signed.1 then -(digitsVal signed.2 : Int) else (digitsVal signed.2 : Int))

/-- Python `str.split(sep)` for a one-character separator. -/
def splitChar (sep : Char) : List Char → List (List Char)
  | [] => [[]]
  | c :: rest =>
    let r := splitChar sep rest
    if c = sep then [] :: r
    else
      match r with
      | h :: t => (c :: h) :: t
      | [] => [[c]]

/-- First failing check of an ordered list of check outcomes (`none` means
the check passed). -/
def firstFailure (l : List (Option VErr)) : Option VErr :=
  l.findSome? id

/-- Whether an `Except` is in its error case. -/
def exceptIsError {ε α : Type} : Except ε α → Bool
  | Except.error _ => true
  | Except.ok _ => false

/-
Core base class, src/fastapi_assets/core/base_validator.py.
-/

/-- An error detail as the core `BaseValidator` accepts it: a plain string
or a callable from the failing value to a string. -/
inductive ErrDetail where
  | strD (s : String)
  | fnD (f : PyValue → String)

/-- Python truthiness of an optional error detail: `None` and the empty
string are falsy; a callable is always truthy. -/
def edTruthy : Option ErrDetail → Bool
  | none => false
  | some (ErrDetail.strD s) => !(s == "")
  | some (ErrDetail.fnD _) => true

/-- Resolution of an error detail: a callable is invoked on the failing
value, a string is returned as is (`str()` of a string is itself). -/
def resolveDetail (d : ErrDetail) (value : PyValue) : String :=
  match d with
  | ErrDetail.strD s => s
  | ErrDetail.fnD f => f value

/-- The state `BaseValidator.__init__` stores: the default status code and
the default error detail. -/
structure BaseCfg where
  status_code : Int
  error_detail : ErrDetail

/-- `BaseValidator._raise_error(value, status_code, detail)` of the core
base class: the status code falls back to the instance default only when it
is `None` (`status_code if status_code is not None else self._status_code`),
the detail falls back whenever it is falsy (`detail if detail else
self._error_detail`), and a callable detail is resolved on the failing
value. -/
def raise_error (b : BaseCfg) (value : PyValue) (status_code : Option Int)
    (detail : Option ErrDetail) : HTTPError :=
  let final_status_code : Int :=
    match status_code with
    | some sc => sc
    | none => b.status_code
  let error_source : ErrDetail :=
    if edTruthy detail then detail.getD b.error_detail else b.error_detail
  { status_code := final_status_code, detail := resolveDetail error_source value }

/-
Aspect-ratio parsing, src/fastapi_assets/validators/image_validator.py,
ImageValidator._parse_aspect_ratios.
-/

/-- One iteration of the `_parse_aspect_ratios` loop body on a ratio string
`r`: split on `":"` into exactly two parts, parse both as ints, reject a
zero height.  `none` models the paths on which the loop body raises
`ValueError` (wrong number of parts, unparsable ints, zero height) — all of
which the source catches and converts into its own `ValueError`. -/
def ratio1? (r : String) : Option ℚ :=
  match splitChar ':' r.toList with
  | [ws, hs] =>
    match pyInt? (String.mk ws), pyInt? (String.mk hs) with
    | some w, some h => if h = 0 then none else some ((w : ℚ) / (h : ℚ))
    | _, _ => none
  | _ => none

/-- The `for r in ratios` loop of `_parse_aspect_ratios`: the first
malformed ratio string aborts construction with a `ValueError` naming it. -/
def parseRatiosGo : List String → Except ConfigError (List ℚ)
  | [] => Except.ok []
  | r :: rest =>
    match ratio1? r with
    | none => Except.error (ConfigError.badAspectRatio r)
    | some q => (parseRatiosGo rest).map (fun l => q :: l)

/-- `ImageValidator._parse_aspect_ratios(ratios)`: `None` or an empty list
yields `None` (`if not ratios: return None`), otherwise each `"W:H"` string
is converted to a rational and a malformed string raises at construction. -/
def parseAspectRatios : Option (List String) → Except ConfigError (Option (List ℚ))
  | none => Except.ok none
  | some [] => Except.ok none
  | some rs => (parseRatiosGo rs).map some

/-
CookieAssert, src/fastapi_assets/validators/cookie_validator.py.
The file defines its own ValidationError (whose __init__ calls
super().__init__(detail), so str() of it is its detail) and its own
BaseValidator whose _raise_error uses `or`-truthiness fallbacks.
-/

/-- The pre-built patterns table `PRE_BUILT_PATTERNS` of
cookie_validator.py, keyed by format name. -/
def PRE_BUILT_PATTERNS : String → Option String
  | "session_id" => some "^[A-Za-z0-9_-]\x7b16,128\x7d$"
  | "uuid4" => some "^[a-fA-F0-9]\x7b8\x7d-[a-fA-F0-9]\x7b4\x7d-4[a-fA-F0-9]\x7b3\x7d-[89abAB][a-fA-F0-9]\x7b3\x7d-[a-fA-F0-9]\x7b12\x7d$"
  | "bearer_token" => some "^[Bb]earer [A-Za-z0-9\\._~\\+\\/=-]+$"
  | "email" => some "^[a-zA-Z0-9._%+-]+@[a-zA-Z0-9.-]+\\.[a-zA-Z]\x7b2,\x7d$"
  | "datetime" => some "^\\d\x7b4\x7d-\\d\x7b2\x7d-\\d\x7b2\x7d[T ]\\d\x7b2\x7d:\\d\x7b2\x7d:\\d\x7b2\x7d(\\.\\d+)?([Zz]|([+-]\\d\x7b2\x7d:\\d\x7b2\x7d))?$"
  | _ => none

/-- The keyword arguments of `CookieAssert.__init__` with their source
defaults.  `default := none` models the `...` sentinel (no default
supplied); `some PyValue.pyNone` models an explicit `default=None`.  The
`Optional[str]` error-detail parameters are modelled at their (string)
defaults; the claims never pass `None` for them. -/
structure CookieArgs where
  aliasName : String
  default : Option PyValue := none
  required : Bool := true
  gt : Option ℚ := none
  ge : Option ℚ := none
  lt : Option ℚ := none
  le : Option ℚ := none
  min_length : Option Nat := none
  max_length : Option Nat := none
  regex : Option String := none
  pattern : Option String := none
  format : Option String := none
  validator : Option (String → CustomResult) := none
  on_required_error_detail : String := "Cookie is required."
  on_numeric_error_detail : String := "Cookie value must be a number."
  on_comparison_error_detail : String := "Cookie value fails comparison rules."
  on_length_error_detail : String := "Cookie value fails length constraints."
  on_pattern_error_detail : String := "Cookie has an invalid format."
  on_validator_error_detail : String := "Cookie failed custom validation."
  status_code : Int := 400
  error_detail : String := "Cookie validation failed."

/-- The instance attributes a successfully constructed `CookieAssert`
holds. -/
structure CookieConfig where
  aliasName : String
  default : Option PyValue
  is_required : Bool
  gt : Option ℚ
  ge : Option ℚ
  lt : Option ℚ
  le : Option ℚ
  min_length : Option Nat
  max_length : Option Nat
  custom_validator : Option (String → CustomResult)
  err_required : String
  err_numeric : String
  err_compare : String
  err_length : String
  err_pattern : String
  err_validator : String
  final_regex_str : Option String
  final_regex : Option CompiledRegex
  status_code : Int
  error_detail : String

/-- `CookieAssert.__init__`.  `compile` models `re.compile` (the flag is
unused here; the cookie validator compiles without flags).  Requiredness:
`required if default is ... else (default is None and required)`.  Pattern
handling: `final_regex_str = regex or pattern`; combining it with `format`
raises; an unknown `format` raises; otherwise `format` resolves through
`PRE_BUILT_PATTERNS`, and a truthy `final_regex_str` is compiled. -/
def mkCookieAssert (compile : String → Bool → CompiledRegex) (a : CookieArgs) :
    Except ConfigError CookieConfig :=
  let is_required : Bool :=
    match a.default with
    | none => a.required
    | some d => decide (d = PyValue.pyNone) && a.required
  let frs0 := pyOrStr a.regex a.pattern
  if strTruthy frs0 && strTruthy a.format then
    Except.error ConfigError.patternAndFormat
  else
    let resolved : Except ConfigError (Option String) :=
      if strTruthy a.format then
        match PRE_BUILT_PATTERNS (a.format.getD "") with
        | some p => Except.ok (some p)
        | none => Except.error (ConfigError.unknownFormat (a.format.getD ""))
      else Except.ok frs0
    match resolved with
    | Except.error e => Except.error e
    | Except.ok frs =>
      Except.ok
        { aliasName := a.aliasName
          default := a.default
          is_required := is_required
          gt := a.gt, ge := a.ge, lt := a.lt, le := a.le
          min_length := a.min_length, max_length := a.max_length
          custom_validator := a.validator
          err_required := a.on_required_error_detail
          err_numeric := a.on_numeric_error_detail
          err_compare := a.on_comparison_error_detail
          err_length := a.on_length_error_detail
          err_pattern := a.on_pattern_error_detail
          err_validator := a.on_validator_error_detail
          final_regex_str := frs
          final_regex :=
            if strTruthy frs then some (compile (frs.getD "") false) else none
          status_code := a.status_code
          error_detail := a.error_detail }

/-- The in-file `BaseValidator._raise_error` of cookie_validator.py:
`HTTPException(status_code=status_code or self._status_code, detail=detail
or self._error_detail)` — both fallbacks by truthiness (`0` and `""` fall
back). -/
def cookieRaise (c : CookieConfig) (detail : String) (status_code : Option Int) :
    HTTPError :=
  { status_code :=
      match status_code with
      | some sc => if sc = 0 then c.status_code else sc
      | none => c.status_code
    detail := if detail == "" then c.error_detail else detail }

/-- Whether any of `gt`, `ge`, `lt`, `le` is set (the guard of
`CookieAssert._validate_numeric`). -/
def cookieBoundsConfigured (c : CookieConfig) : Bool :=
  c.gt.isSome || c.ge.isSome || c.lt.isSome || c.le.isSome

/-- The value `CookieAssert._validate_numeric` produces when it does not
raise: the float coercion when a numeric bound is configured, else `None`. -/
def cookieNumericValue? (c : CookieConfig) (v : String) : Option ℚ :=
  if cookieBoundsConfigured c then pyFloat? v else none

/-- The failure of `CookieAssert._validate_numeric`: with a numeric bound
configured and a value `float()` cannot coerce, a `ValidationError` with
the numeric message. -/
def cookieNumericErr? (c : CookieConfig) (v : String) : Option VErr :=
  if cookieBoundsConfigured c && (pyFloat? v).isNone then
    some { detail := c.err_numeric, status_code := 400 }
  else none

/-- `CookieAssert._validate_comparison` on an already-coerced number: the
four bounds are checked in the source order `gt`, `ge`, `lt`, `le`, each
raising the comparison message. -/
def cookieComparisonOnQ (c : CookieConfig) (q : ℚ) : Option VErr :=
  if c.gt.isSome && !(decide (q > c.gt.getD 0)) then
    some { detail := c.err_compare, status_code := 400 }
  else if c.ge.isSome && !(decide (q ≥ c.ge.getD 0)) then
    some { detail := c.err_compare, status_code := 400 }
  else if c.lt.isSome && !(decide (q < c.lt.getD 0)) then
    some { detail := c.err_compare, status_code := 400 }
  else if c.le.isSome && !(decide (q ≤ c.le.getD 0)) then
    some { detail := c.err_compare, status_code := 400 }
  else none

/-- The comparison step as `__call__` runs it: only when
`_validate_numeric` returned a number (`if numeric_value is not None`). -/
def cookieComparisonErr? (c : CookieConfig) (v : String) : Option VErr :=
  match cookieNumericValue? c v with
  | some q => cookieComparisonOnQ c q
  | none => none

/-- `CookieAssert._validate_length`: `len(value)` against `min_length` then
`max_length`. -/
def cookieLengthErr? (c : CookieConfig) (v : String) : Option VErr :=
  if c.min_length.isSome && v.length < c.min_length.getD 0 then
    some { detail := c.err_length, status_code := 400 }
  else if c.max_length.isSome && v.length > c.max_length.getD 0 then
    some { detail := c.err_length, status_code := 400 }
  else none

/-- `CookieAssert._validate_pattern`: `if self.final_regex and not
self.final_regex.search(value)` — substring-search semantics. -/
def cookiePatternErr? (c : CookieConfig) (v : String) : Option VErr :=
  match c.final_regex with
  | some r => if !(re_search r v) then some { detail := c.err_pattern, status_code := 400 } else none
  | none => none

/-- Python `str()` of the `ValidationError` class defined inside
cookie_validator.py: its `__init__` calls `super().__init__(detail)`, so
`str(e)` is the detail. -/
def cookieValidationErrorStr (e : VErr) : String :=
  e.detail

/-- `CookieAssert._validate_custom`.  A falsy return raises
`ValidationError(detail=self.err_validator, status_code=400)` inside the
`try`, and the following `except Exception as e` catches that very
exception too, re-raising `ValidationError(f"{self.err_validator}: {e}")` —
so the falsy message is the configured message wrapped around itself, and a
raising predicate yields the configured message wrapping the thrown text. -/
def cookieCustomErr? (c : CookieConfig) (v : String) : Option VErr :=
  match c.custom_validator with
  | none => none
  | some f =>
    match f v with
    | CustomResult.ret true => none
    | CustomResult.ret false =>
      some { detail := c.err_validator ++ ": " ++
               cookieValidationErrorStr { detail := c.err_validator, status_code := 400 },
             status_code := 400 }
    | CustomResult.exn m =>
      some { detail := c.err_validator ++ ": " ++ m, status_code := 400 }

/-- The body of the `try` block of `CookieAssert.__call__` on a present
cookie value: numeric coercion, comparison, length, pattern, custom — the
first raised `ValidationError` aborts the rest. -/
def cookieChainErr? (c : CookieConfig) (v : String) : Option VErr :=
  match cookieNumericErr? c v with
  | some e => some e
  | none =>
    match cookieComparisonErr? c v with
    | some e => some e
    | none =>
      match cookieLengthErr? c v with
      | some e => some e
      | none =>
        match cookiePatternErr? c v with
        | some e => some e
        | none => cookieCustomErr? c v

/-- The check sequence of `CookieAssert.__call__` in the order the source
runs it, as independent outcomes. -/
def cookieChecks (c : CookieConfig) (v : String) : List (Option VErr) :=
  [cookieNumericErr? c v, cookieComparisonErr? c v, cookieLengthErr? c v,
   cookiePatternErr? c v, cookieCustomErr? c v]

/-- Python `str()` of a FastAPI `HTTPException` (Starlette):
`f"{status_code}: {detail}"`. -/
def httpExceptionStr (e : HTTPError) : String :=
  toString e.status_code ++ ": " ++ e.detail

/-- `CookieAssert.__call__` after the cookie has been read from the
request.  An empty alias is a 500 before the `try`.  A missing required
cookie raises `HTTPException` inside the `try`, which the trailing `except
Exception` catches and re-raises as a 500 wrapping `str(e)`.  A missing
optional cookie returns the default (or `None`).  On a present value the
check chain runs; a `ValidationError` is converted via `_raise_error`; on
success the float coercion (when numeric rules were used) or the original
string is returned. -/
def CookieConfig.call (c : CookieConfig) (cookie_value : Option String) :
    Except HTTPError PyValue :=
  if c.aliasName == "" then
    Except.error (cookieRaise c
      "Internal Server Error: `CookieAssert` must be initialized with an `alias`."
      (some 500))
  else
    match cookie_value with
    | none =>
      if c.is_required then
        Except.error (cookieRaise c
          ("An unexpected error occurred during cookie validation: " ++
            httpExceptionStr (cookieRaise c c.err_required none))
          (some 500))
      else
        Except.ok (c.default.getD PyValue.pyNone)
    | some v =>
      match cookieChainErr? c v with
      | some e => Except.error (cookieRaise c e.detail (some e.status_code))
      | none =>
        Except.ok
          (match cookieNumericValue? c v with
           | some q => PyValue.num q
           | none => PyValue.str v)

/-
HeaderValidator, src/fastapi_assets/validators/header_validator.py.
It subclasses the core BaseValidator and raises the core ValidationError
(src/fastapi_assets/core/exceptions.py), whose __init__ does NOT call
super().__init__; every raise site passes keyword arguments, so
BaseException.args is empty and str() of such an exception is "".
-/

/-- Python `str()` of the core `ValidationError` as the library raises it
(keyword arguments, no `super().__init__` call): the empty string. -/
def exnValidationErrorStr (_e : VErr) : String :=
  ""

/-- An error detail as `HeaderValidator` accepts it: a string or a callable
on the (possibly absent) header value. -/
inductive HeaderErrDetail where
  | strD (s : String)
  | fnD (f : Option String → String)

/-- Python truthiness of an optional header error detail. -/
def hdTruthy : Option HeaderErrDetail → Bool
  | none => false
  | some (HeaderErrDetail.strD s) => !(s == "")
  | some (HeaderErrDetail.fnD _) => true

/-- The predefined format-patterns table `_FORMAT_PATTERNS` of
header_validator.py. -/
def FORMAT_PATTERNS : String → Option String
  | "uuid4" => some "^[0-9a-f]\x7b8\x7d-[0-9a-f]\x7b4\x7d-4[0-9a-f]\x7b3\x7d-[89ab][0-9a-f]\x7b3\x7d-[0-9a-f]\x7b12\x7d$"
  | "email" => some "^[a-zA-Z0-9._%+-]+@[a-zA-Z0-9.-]+\\.[a-zA-Z]\x7b2,\x7d$"
  | "bearer_token" => some "^Bearer [a-zA-Z0-9\\-._~+/]+=*$"
  | "datetime" => some "^\\d\x7b4\x7d-\\d\x7b2\x7d-\\d\x7b2\x7dT\\d\x7b2\x7d:\\d\x7b2\x7d:\\d\x7b2\x7d(\\.\\d+)?(Z|[+-]\\d\x7b2\x7d:\\d\x7b2\x7d)?$"
  | "alphanumeric" => some "^[a-zA-Z0-9]+$"
  | "api_key" => some "^[a-zA-Z0-9]\x7b32,\x7d$"
  | _ => none

/-- The keyword arguments of `HeaderValidator.__init__` the validation
logic depends on, with their source defaults.  `default := none` models the
`...` sentinel; `required` is `Optional[bool]` defaulting to `None`. -/
structure HeaderArgs where
  default : Option PyValue := none
  pattern : Option String := none
  format : Option String := none
  allowed_values : Option (List String) := none
  validator : Option (String → CustomResult) := none
  required : Option Bool := none
  on_error_detail : Option HeaderErrDetail := none

/-- The instance attributes a successfully constructed `HeaderValidator`
holds. -/
structure HeaderConfig where
  required : Bool
  allowed_values : Option (List String)
  custom_validator : Option (String → CustomResult)
  pattern : Option CompiledRegex
  format_name : Option String
  on_error_detail : Option HeaderErrDetail
  status_code : Int
  error_detail : HeaderErrDetail

/-- `HeaderValidator.__init__`.  Requiredness: `if required is None:
self._required = default is ...` else the explicit flag.  A truthy
`pattern` together with a truthy `format` raises; an unknown `format`
raises; a known `format` compiles its table pattern with `re.IGNORECASE`
(the `true` flag of `compile`), a plain `pattern` compiles without flags.
The base state is `status_code=400` and `error_detail=on_error_detail or
"Header validation failed."`. -/
def mkHeaderValidator (compile : String → Bool → CompiledRegex) (a : HeaderArgs) :
    Except ConfigError HeaderConfig :=
  let required : Bool :=
    match a.required with
    | none => decide (a.default = none)
    | some b => b
  let base_error : HeaderErrDetail :=
    if hdTruthy a.on_error_detail then a.on_error_detail.getD (HeaderErrDetail.strD "")
    else HeaderErrDetail.strD "Header validation failed."
  if strTruthy a.pattern && strTruthy a.format then
    Except.error ConfigError.patternAndFormat
  else if strTruthy a.format then
    match FORMAT_PATTERNS (a.format.getD "") with
    | none => Except.error (ConfigError.unknownFormat (a.format.getD ""))
    | some p =>
      Except.ok
        { required := required, allowed_values := a.allowed_values
          custom_validator := a.validator
          pattern := some (compile p true), format_name := a.format
          on_error_detail := a.on_error_detail
          status_code := 400, error_detail := base_error }
  else if strTruthy a.pattern then
    Except.ok
      { required := required, allowed_values := a.allowed_values
        custom_validator := a.validator
        pattern := some (compile (a.pattern.getD "") false), format_name := none
        on_error_detail := a.on_error_detail
        status_code := 400, error_detail := base_error }
  else
    Except.ok
      { required := required, allowed_values := a.allowed_values
        custom_validator := a.validator
        pattern := none, format_name := none
        on_error_detail := a.on_error_detail
        status_code := 400, error_detail := base_error }

/-- `HeaderValidator._validate_required`: a required header that is `None`
or `""` raises, with `self._on_error_detail or "Required header is
missing."` resolved (a callable is invoked on the value). -/
def headerRequiredErr? (h : HeaderConfig) (value : Option String) : Option VErr :=
  if h.required && (value == none || value == some "") then
    let d : HeaderErrDetail :=
      if hdTruthy h.on_error_detail then h.on_error_detail.getD (HeaderErrDetail.strD "")
      else HeaderErrDetail.strD "Required header is missing."
    let detail_str : String :=
      match d with
      | HeaderErrDetail.strD s => s
      | HeaderErrDetail.fnD f => f value
    some { detail := detail_str, status_code := 400 }
  else none

/-- `HeaderValidator._validate_allowed_values`: exact membership in the
configured list. -/
def headerAllowedErr? (h : HeaderConfig) (v : String) : Option VErr :=
  match h.allowed_values with
  | none => none
  | some l =>
    if l.contains v then none
    else
      some { detail := "Header value \'" ++ v ++ "\' is not allowed. Allowed values are: " ++
               String.intercalate ", " l,
             status_code := 400 }

/-- `HeaderValidator._validate_pattern`: `if not self._pattern.match(value)`
— prefix-anchored match; the message names the format when one was
configured, else quotes the pattern source. -/
def headerPatternErr? (h : HeaderConfig) (v : String) : Option VErr :=
  match h.pattern with
  | none => none
  | some r =>
    if re_match r v then none
    else
      some { detail :=
               if strTruthy h.format_name then
                 "Header value does not match the required format: \'" ++
                   h.format_name.getD "" ++ "\'"
               else
                 "Header value \'" ++ v ++ "\' does not match the required pattern: " ++
                   r.source,
             status_code := 400 }

/-- `HeaderValidator._validate_custom`.  A falsy return raises
`ValidationError(detail=..., status_code=400)` inside the `try`; the
`except Exception as e` catches that exception as well and re-raises
`ValidationError(f"Custom validation error: {str(e)}")`, and `str` of the
core `ValidationError` is `""` — so the intended "Custom validation failed
for header value ..." detail is discarded and the falsy message is
`"Custom validation error: "`. -/
def headerCustomErr? (h : HeaderConfig) (v : String) : Option VErr :=
  match h.custom_validator with
  | none => none
  | some f =>
    match f v with
    | CustomResult.ret true => none
    | CustomResult.ret false =>
      some { detail := "Custom validation error: " ++
               exnValidationErrorStr
                 { detail := "Custom validation failed for header value \'" ++ v ++ "\'",
                   status_code := 400 },
             status_code := 400 }
    | CustomResult.exn m =>
      some { detail := "Custom validation error: " ++ m, status_code := 400 }

/-- `HeaderValidator._validate`.  The required check runs first; on its
failure the code calls the core `BaseValidator._raise_error(status_code=...,
detail=...)` WITHOUT the required positional argument `value`, so Python
raises `TypeError` instead of an `HTTPException` — modelled as
`PyError.typeError`.  A `None` or empty value then short-circuits to
`return value or ""` (the empty string, whatever default was configured).
Otherwise allowed-values, pattern and custom run in order, any failure
again reaching the broken `_raise_error` call. -/
def HeaderConfig.validate (h : HeaderConfig) (value : Option String) :
    Except PyError String :=
  match headerRequiredErr? h value with
  | some _ => Except.error PyError.typeError
  | none =>
    match value with
    | none => Except.ok ""
    | some s =>
      if s == "" then Except.ok ""
      else
        match
          (match headerAllowedErr? h s with
           | some e => some e
           | none =>
             match headerPatternErr? h s with
             | some e => some e
             | none => headerCustomErr? h s) with
        | some _ => Except.error PyError.typeError
        | none => Except.ok s

/-
PathValidator, src/fastapi_assets/request_validators/path_assert.py.
It subclasses the core BaseValidator and calls _raise_error correctly
(passing value=), so failures become HTTPExceptions via the core logic.
-/

/-- The constructor arguments of `PathValidator.__init__` the validation
logic depends on (the `Path()` passthrough arguments are presentation-only). -/
structure PathArgs where
  allowed_values : Option (List PyValue) := none
  pattern : Option String := none
  min_length : Option Nat := none
  max_length : Option Nat := none
  gt : Option ℚ := none
  lt : Option ℚ := none
  ge : Option ℚ := none
  le : Option ℚ := none
  validator : Option (PyValue → CustomResult) := none
  on_error_detail : Option ErrDetail := none

/-- The instance attributes a constructed `PathValidator` holds. -/
structure PathConfig where
  allowed_values : Option (List PyValue)
  pattern : Option CompiledRegex
  min_length : Option Nat
  max_length : Option Nat
  gt : Option ℚ
  lt : Option ℚ
  ge : Option ℚ
  le : Option ℚ
  custom_validator : Option (PyValue → CustomResult)
  base : BaseCfg

/-- `PathValidator.__init__`: the base state is `status_code=400`,
`error_detail=on_error_detail or "Path parameter validation failed."`; a
truthy `pattern` is compiled (`re.compile(pattern) if pattern else None`). -/
def mkPathValidator (compile : String → Bool → CompiledRegex) (a : PathArgs) :
    PathConfig :=
  { allowed_values := a.allowed_values
    pattern :=
      if strTruthy a.pattern then some (compile (a.pattern.getD "") false) else none
    min_length := a.min_length, max_length := a.max_length
    gt := a.gt, lt := a.lt, ge := a.ge, le := a.le
    custom_validator := a.validator
    base :=
      { status_code := 400
        error_detail :=
          if edTruthy a.on_error_detail then
            a.on_error_detail.getD (ErrDetail.strD "")
          else ErrDetail.strD "Path parameter validation failed." } }

/-- `PathValidator._validate_allowed_values`: membership by Python `==`. -/
def pathAllowedErr? (p : PathConfig) (v : PyValue) : Option VErr :=
  match p.allowed_values with
  | none => none
  | some l =>
    if l.any (fun x => pyEq v x) then none
    else
      some { detail := "Value \'" ++ pyStr v ++ "\' is not allowed. " ++
               "Allowed values are: " ++ String.intercalate ", " (l.map pyStr),
             status_code := 400 }

/-- `PathValidator._validate_pattern`: applies only to strings, with
prefix-anchored `match` semantics. -/
def pathPatternErr? (p : PathConfig) (v : PyValue) : Option VErr :=
  match p.pattern, v with
  | some r, PyValue.str s =>
    if re_match r s then none
    else
      some { detail := "Value \'" ++ s ++ "\' does not match the required pattern: " ++
               r.source,
             status_code := 400 }
  | _, _ => none

/-- `PathValidator._validate_length`: applies only to strings; minimum
violation is reported before maximum violation. -/
def pathLengthErr? (p : PathConfig) (v : PyValue) : Option VErr :=
  match v with
  | PyValue.str s =>
    if p.min_length.isSome && s.length < p.min_length.getD 0 then
      some { detail := "Value \'" ++ s ++ "\' is too short. Minimum length is " ++
               toString (p.min_length.getD 0) ++ " characters.",
             status_code := 400 }
    else if p.max_length.isSome && s.length > p.max_length.getD 0 then
      some { detail := "Value \'" ++ s ++ "\' is too long. Maximum length is " ++
               toString (p.max_length.getD 0) ++ " characters.",
             status_code := 400 }
    else none
  | _ => none

/-- The `gt` check of `PathValidator._validate_numeric_bounds`:
`if self._gt is not None and value <= self._gt`. -/
def pathGtErr? (p : PathConfig) (q : ℚ) : Option VErr :=
  match p.gt with
  | some b =>
    if q ≤ b then
      some { detail := "Value must be greater than " ++ ratStr b, status_code := 400 }
    else none
  | none => none

/-- The `lt` check: `if self._lt is not None and value >= self._lt`. -/
def pathLtErr? (p : PathConfig) (q : ℚ) : Option VErr :=
  match p.lt with
  | some b =>
    if q ≥ b then
      some { detail := "Value must be less than " ++ ratStr b, status_code := 400 }
    else none
  | none => none

/-- The `ge` check: `if self._ge is not None and value < self._ge`. -/
def pathGeErr? (p : PathConfig) (q : ℚ) : Option VErr :=
  match p.ge with
  | some b =>
    if q < b then
      some { detail := "Value must be greater than or equal to " ++ ratStr b,
             status_code := 400 }
    else none
  | none => none

/-- The `le` check: `if self._le is not None and value > self._le`. -/
def pathLeErr? (p : PathConfig) (q : ℚ) : Option VErr :=
  match p.le with
  | some b =>
    if q > b then
      some { detail := "Value must be less than or equal to " ++ ratStr b,
             status_code := 400 }
    else none
  | none => none

/-- `PathValidator._validate_numeric_bounds` on an already-numeric value:
the bounds are checked in the source order `gt`, `lt`, `ge`, `le`, the
first violation raising its own message. -/
def pathNumericOnQ (p : PathConfig) (q : ℚ) : Option VErr :=
  match pathGtErr? p q with
  | some e => some e
  | none =>
    match pathLtErr? p q with
    | some e => some e
    | none =>
      match pathGeErr? p q with
      | some e => some e
      | none => pathLeErr? p q

/-- `PathValidator._validate_numeric_bounds`: applies only to `int`/`float`
values (others silently pass). -/
def pathNumericErr? (p : PathConfig) (v : PyValue) : Option VErr :=
  match pyNum? v with
  | none => none
  | some q => pathNumericOnQ p q

/-- `PathValidator._validate_custom`.  As in the other validators, the
falsy-return `ValidationError` raised inside the `try` is caught by the
`except Exception` clause and re-wrapped; `str` of the core
`ValidationError` is `""`, so the falsy message is
`"Custom validation error: "`. -/
def pathCustomErr? (p : PathConfig) (v : PyValue) : Option VErr :=
  match p.custom_validator with
  | none => none
  | some f =>
    match f v with
    | CustomResult.ret true => none
    | CustomResult.ret false =>
      some { detail := "Custom validation error: " ++
               exnValidationErrorStr
                 { detail := "Custom validation failed for value \'" ++ pyStr v ++ "\'",
                   status_code := 400 },
             status_code := 400 }
    | CustomResult.exn m =>
      some { detail := "Custom validation error: " ++ m, status_code := 400 }

/-- The body of the `try` block of `PathValidator._validate`:
allowed-values, pattern, length, numeric bounds, custom — the first raised
`ValidationError` aborts the rest. -/
def pathChainErr? (p : PathConfig) (v : PyValue) : Option VErr :=
  match pathAllowedErr? p v with
  | some e => some e
  | none =>
    match pathPatternErr? p v with
    | some e => some e
    | none =>
      match pathLengthErr? p v with
      | some e => some e
      | none =>
        match pathNumericErr? p v with
        | some e => some e
        | none => pathCustomErr? p v

/-- The check sequence of `PathValidator._validate` in the order the
source runs it, as independent outcomes. -/
def pathChecks (p : PathConfig) (v : PyValue) : List (Option VErr) :=
  [pathAllowedErr? p v, pathPatternErr? p v, pathLengthErr? p v,
   pathNumericErr? p v, pathCustomErr? p v]

/-- `PathValidator._validate`: a `ValidationError` from the chain is
converted through the core `_raise_error(value=value,
status_code=e.status_code, detail=str(e.detail))`; on success the value is
returned unchanged. -/
def PathConfig.validate (p : PathConfig) (v : PyValue) : Except HTTPError PyValue :=
  match pathChainErr? p v with
  | some e =>
    Except.error (raise_error p.base v (some e.status_code) (some (ErrDetail.strD e.detail)))
  | none => Except.ok v

/-
Auxiliary definitions for the theorems below.
-/

deriving instance DecidableEq for Except

/-- A concrete stand-in for `re.compile` in closed evaluations: every
pattern used with it in this file is metacharacter-free, so its compiled
form is the literal matcher. -/
def testCompile : String → Bool → CompiledRegex :=
  fun s _ => litRegex s

/-- Stated from the claim's words, for comparison with the source order:
the numeric-bound failure reported is that of the first violated bound in
the order `gt`, `lt`, `ge`, `le` (each reported, in the cookie validator,
with the comparison message). -/
def cookieComparisonClaimOrder (c : CookieConfig) (q : ℚ) : Option VErr :=
  firstFailure
    [if c.gt.isSome && !(decide (q > c.gt.getD 0)) then
       some { detail := c.err_compare, status_code := 400 } else none,
     if c.lt.isSome && !(decide (q < c.lt.getD 0)) then
       some { detail := c.err_compare, status_code := 400 } else none,
     if c.ge.isSome && !(decide (q ≥ c.ge.getD 0)) then
       some { detail := c.err_compare, status_code := 400 } else none,
     if c.le.isSome && !(decide (q ≤ c.le.getD 0)) then
       some { detail := c.err_compare, status_code := 400 } else none]

/-- The configuration of spec Scenario B: a cookie validator with `gt=10,
required=False, default=None` — the result of its constructor. -/
def scenarioBCfg : CookieConfig :=
  { aliasName := "session"
    default := some PyValue.pyNone
    is_required := false
    gt := some 10, ge := none, lt := none, le := none
    min_length := none, max_length := none
    custom_validator := none
    err_required := "Cookie is required."
    err_numeric := "Cookie value must be a number."
    err_compare := "Cookie value fails comparison rules."
    err_length := "Cookie value fails length constraints."
    err_pattern := "Cookie has an invalid format."
    err_validator := "Cookie failed custom validation."
    final_regex_str := none
    final_regex := none
    status_code := 400
    error_detail := "Cookie validation failed." }

/-- A cookie configuration with only a length rule and a literal pattern
rule, used to instantiate the universal theorems. -/
def lenPatCfg : CookieConfig :=
  { aliasName := "c"
    default := none
    is_required := true
    gt := none, ge := none, lt := none, le := none
    min_length := some 2, max_length := some 10
    custom_validator := none
    err_required := "Cookie is required."
    err_numeric := "Cookie value must be a number."
    err_compare := "Cookie value fails comparison rules."
    err_length := "Cookie value fails length constraints."
    err_pattern := "Cookie has an invalid format."
    err_validator := "Cookie failed custom validation."
    final_regex_str := some "a"
    final_regex := some (litRegex "a")
    status_code := 400
    error_detail := "Cookie validation failed." }

/-- The configuration produced by `CookieAssert(alias="c", regex="a",
gt=10)`: both a pattern rule and a numeric-bound rule. -/
def patternAndBoundCfg : CookieConfig :=
  { aliasName := "c"
    default := none
    is_required := true
    gt := some 10, ge := none, lt := none, le := none
    min_length := none, max_length := none
    custom_validator := none
    err_required := "Cookie is required."
    err_numeric := "Cookie value must be a number."
    err_compare := "Cookie value fails comparison rules."
    err_length := "Cookie value fails length constraints."
    err_pattern := "Cookie has an invalid format."
    err_validator := "Cookie failed custom validation."
    final_regex_str := some "a"
    final_regex := some (litRegex "a")
    status_code := 400
    error_detail := "Cookie validation failed." }

/-- The configuration of a header validator constructed with
`required=False` and no rules, used to instantiate the universal theorems. -/
def notReqHeaderCfg : HeaderConfig :=
  { required := false
    allowed_values := none
    custom_validator := none
    pattern := none
    format_name := none
    on_error_detail := none
    status_code := 400
    error_detail := HeaderErrDetail.strD "Header validation failed." }

/-- A path configuration with a single `ge` bound, used to instantiate the
universal theorems. -/
def geOnlyPath : PathConfig :=
  { allowed_values := none
    pattern := none
    min_length := none, max_length := none
    gt := none, lt := none, ge := some 5, le := none
    custom_validator := none
    base := { status_code := 400
              error_detail := ErrDetail.strD "Path parameter validation failed." } }

/-
Helper lemmas.
-/

/-- The sequential try-block of `CookieAssert.__call__` computes the first
failing check of its check list. -/
theorem cookie_chain_eq (c : CookieConfig) (v : String) :
    cookieChainErr? c v = firstFailure (cookieChecks c v) := by
  unfold cookieChainErr? firstFailure cookieChecks
  cases cookieNumericErr? c v <;>
    cases cookieComparisonErr? c v <;>
      cases cookieLengthErr? c v <;>
        cases cookiePatternErr? c v <;>
          cases cookieCustomErr? c v <;>
            simp [List.findSome?]

/-- The sequential try-block of `PathValidator._validate` computes the
first failing check of its check list. -/
theorem path_chain_eq (p : PathConfig) (v : PyValue) :
    pathChainErr? p v = firstFailure (pathChecks p v) := by
  unfold pathChainErr? firstFailure pathChecks
  cases pathAllowedErr? p v <;>
    cases pathPatternErr? p v <;>
      cases pathLengthErr? p v <;>
        cases pathNumericErr? p v <;>
          cases pathCustomErr? p v <;>
            simp [List.findSome?]

/-- Evaluation of the float coercion on `"5"`. -/
theorem pyFloat_five : pyFloat? "5" = some 5 := by
  have h0 : pyDecimal? "5" = some (false, 5, 0) := by decide
  rw [pyFloat?, h0]
  simp [decToRat]

/-- Evaluation of the float coercion on `"10"`. -/
theorem pyFloat_ten : pyFloat? "10" = some 10 := by
  have h0 : pyDecimal? "10" = some (false, 10, 0) := by decide
  rw [pyFloat?, h0]
  simp [decToRat]

/-- Evaluation of the float coercion on `"10.1"`. -/
theorem pyFloat_tenPointOne : pyFloat? "10.1" = some ((101 : ℚ) / 10) := by
  have h0 : pyDecimal? "10.1" = some (false, 101, 1) := by decide
  rw [pyFloat?, h0]
  simp [decToRat]

/-
Claim theorems.
-/

/-- C1, amended.  The claimed canonical order (required → allowed-values →
pattern → length → numeric → custom) does not hold for the cookie
validator, which runs numeric coercion and bounds BEFORE length and
pattern.  What does hold: each chain runs its own fixed order with a
first-failure early exit — `PathValidator` runs allowed-values → pattern →
length → numeric bounds → custom, `CookieAssert` runs numeric coercion →
numeric bounds → length → pattern → custom — and the outcome is exactly
that of the first failing check in that order: no later check's error is
produced, and the result does not depend on any rule after the first
failing one (in particular the custom predicate is not consulted when an
earlier check fails). -/
theorem claim_C1_order :
    (∀ (c : CookieConfig) (v : String), c.aliasName ≠ "" →
       c.call (some v) =
         match firstFailure (cookieChecks c v) with
         | some e => Except.error (cookieRaise c e.detail (some e.status_code))
         | none =>
           Except.ok (match cookieNumericValue? c v with
                      | some q => PyValue.num q
                      | none => PyValue.str v)) ∧
    (∀ (p : PathConfig) (v : PyValue),
       p.validate v =
         match firstFailure (pathChecks p v) with
         | some e =>
           Except.error (raise_error p.base v (some e.status_code)
             (some (ErrDetail.strD e.detail)))
         | none => Except.ok v) := by
  constructor
  · intro c v hc
    rw [← cookie_chain_eq]
    have hb : (c.aliasName == "") = false := beq_eq_false_iff_ne.mpr hc
    simp [CookieConfig.call, hb]
  · intro p v
    rw [← path_chain_eq]
    rfl

/-- C1 counterexample: a cookie validator configured with both a pattern
rule (`regex="a"`) and a numeric bound (`gt=10`), applied to the present
value `"5"`.  The pattern check fails on `"5"`, yet the error produced is
the numeric-comparison error — under the claimed order (pattern before
numeric bounds) the pattern error would have been produced, so the claim
is false on the code. -/
theorem claim_C1_counterexample :
    (mkCookieAssert testCompile
       { aliasName := "c", regex := some "a", gt := some 10 }).map
      (fun c => (c.call (some "5"), cookiePatternErr? c "5")) =
      Except.ok
        (Except.error { status_code := 400, detail := "Cookie value fails comparison rules." },
         some { detail := "Cookie has an invalid format.", status_code := 400 }) ∧
    ("Cookie value fails comparison rules." : String) ≠ "Cookie has an invalid format." := by
  constructor
  · have hmk : mkCookieAssert testCompile
        { aliasName := "c", regex := some "a", gt := some 10 } =
        Except.ok patternAndBoundCfg := rfl
    have h1 : patternAndBoundCfg.call (some "5") =
        Except.error { status_code := 400, detail := "Cookie value fails comparison rules." } := by
      simp [CookieConfig.call, cookieChainErr?, cookieNumericErr?, cookieNumericValue?,
            cookieComparisonErr?, cookieComparisonOnQ, cookieLengthErr?, cookiePatternErr?,
            cookieCustomErr?, cookieBoundsConfigured, pyFloat_five, patternAndBoundCfg,
            cookieRaise]
      decide
    have h2 : cookiePatternErr? patternAndBoundCfg "5" =
        some { detail := "Cookie has an invalid format.", status_code := 400 } := by decide
    rw [hmk]
    simp [Except.map, h1, h2]
  · decide

/-- Witness for C1: the amended characterization applied to a concrete
cookie configuration (length and pattern rules) on `"abc"` and a concrete
path configuration (`ge=5`) on the integer `7`. -/
theorem claim_C1_order_witness :
    lenPatCfg.aliasName ≠ "" ∧
    (lenPatCfg.call (some "abc") =
       match firstFailure (cookieChecks lenPatCfg "abc") with
       | some e => Except.error (cookieRaise lenPatCfg e.detail (some e.status_code))
       | none =>
         Except.ok (match cookieNumericValue? lenPatCfg "abc" with
                    | some q => PyValue.num q
                    | none => PyValue.str "abc")) ∧
    (geOnlyPath.validate (PyValue.int 7) =
       match firstFailure (pathChecks geOnlyPath (PyValue.int 7)) with
       | some e =>
         Except.error (raise_error geOnlyPath.base (PyValue.int 7) (some e.status_code)
           (some (ErrDetail.strD e.detail)))
       | none => Except.ok (PyValue.int 7)) :=
  ⟨by decide, claim_C1_order.1 lenPatCfg "abc" (by decide),
   claim_C1_order.2 geOnlyPath (PyValue.int 7)⟩

/-- C2, amended.  The claimed rule (an explicit `required` flag alone
determines requiredness; otherwise required iff no default) holds for
`HeaderValidator`, whose `required` parameter defaults to `None` so an
explicit flag is distinguishable and wins, with fallback `default is ...`.
It does NOT hold for `CookieAssert`: there, when no default is supplied the
`required` flag decides, but when a default IS supplied the value is
required iff the default is `None` AND the flag is true — a truthy default
forces not-required even under an explicit `required=True`. -/
theorem claim_C2_requiredness :
    (∀ (compile : String → Bool → CompiledRegex) (a : HeaderArgs),
       a.pattern = none → a.format = none →
       (mkHeaderValidator compile a).map (fun h => h.required) =
         Except.ok (match a.required with
                    | some b => b
                    | none => decide (a.default = none))) ∧
    (∀ (compile : String → Bool → CompiledRegex) (a : CookieArgs),
       a.regex = none → a.pattern = none → a.format = none →
       (mkCookieAssert compile a).map (fun c => c.is_required) =
         Except.ok (match a.default with
                    | none => a.required
                    | some d => decide (d = PyValue.pyNone) && a.required)) := by
  constructor
  · intro compile a hp hf
    cases hr : a.required <;>
      simp [mkHeaderValidator, hp, hf, hr, strTruthy, Except.map]
  · intro compile a hr hp hf
    cases hd : a.default <;>
      simp [mkCookieAssert, hr, hp, hf, hd, pyOrStr, strTruthy, Except.map]

/-- C2 counterexample: `CookieAssert(alias="c", default="x", required=True)`
— the `required` flag is explicitly true, yet `is_required` is false,
because a supplied non-`None` default forces not-required; under the claim
an explicit `required=True` alone should have made the value mandatory. -/
theorem claim_C2_counterexample :
    (mkCookieAssert testCompile
       { aliasName := "c", default := some (PyValue.str "x"), required := true }).map
      (fun c => c.is_required) = Except.ok false ∧
    (Except.ok false : Except ConfigError Bool) ≠ Except.ok true := by
  constructor
  · rfl
  · decide

/-- Witness for C2: the header rule applied to an explicit
`required=False` with a supplied default, and the cookie rule applied to a
supplied string default with `required=True`. -/
theorem claim_C2_requiredness_witness :
    ((mkHeaderValidator testCompile
        { default := some (PyValue.str "v1"), required := some false }).map
       (fun h => h.required) = Except.ok false) ∧
    ((mkCookieAssert testCompile
        { aliasName := "c", default := some (PyValue.str "x"), required := true }).map
       (fun c => c.is_required) = Except.ok false) :=
  ⟨claim_C2_requiredness.1 testCompile
     { default := some (PyValue.str "v1"), required := some false } rfl rfl,
   claim_C2_requiredness.2 testCompile
     { aliasName := "c", default := some (PyValue.str "x"), required := true } rfl rfl rfl⟩

/-- C3, confirmed.  (i) `PathValidator._validate_numeric_bounds` reports
exactly the first violated bound in the order gt, lt, ge, le.  (ii) The
cookie comparison produces the same failure as the first violated bound in
that claimed order (its source checks gt, ge, lt, le, but every bound
raises the identical comparison message, so the reported failure
coincides).  (iii)/(iv) Boundary laws: a value exactly equal to a `ge`/`le`
bound passes that bound and a value exactly equal to a `gt`/`lt` bound
fails it, in both validators. -/
theorem claim_C3_bounds :
    (∀ (p : PathConfig) (q : ℚ),
       pathNumericOnQ p q =
         firstFailure [pathGtErr? p q, pathLtErr? p q, pathGeErr? p q, pathLeErr? p q]) ∧
    (∀ (c : CookieConfig) (q : ℚ),
       cookieComparisonOnQ c q = cookieComparisonClaimOrder c q) ∧
    (∀ (p : PathConfig) (b : ℚ),
       (p.ge = some b → pathGeErr? p b = none) ∧
       (p.le = some b → pathLeErr? p b = none) ∧
       (p.gt = some b → (pathGtErr? p b).isSome = true) ∧
       (p.lt = some b → (pathLtErr? p b).isSome = true)) ∧
    (∀ (c : CookieConfig) (b : ℚ),
       (c.gt = none → c.lt = none → c.le = none → c.ge = some b →
          cookieComparisonOnQ c b = none) ∧
       (c.gt = none → c.lt = none → c.ge = none → c.le = some b →
          cookieComparisonOnQ c b = none) ∧
       (c.ge = none → c.lt = none → c.le = none → c.gt = some b →
          cookieComparisonOnQ c b = some { detail := c.err_compare, status_code := 400 }) ∧
       (c.gt = none → c.ge = none → c.le = none → c.lt = some b →
          cookieComparisonOnQ c b = some { detail := c.err_compare, status_code := 400 })) := by
  refine ⟨?_, ?_, ?_, ?_⟩
  · intro p q
    unfold pathNumericOnQ firstFailure
    cases pathGtErr? p q <;>
      cases pathLtErr? p q <;>
        cases pathGeErr? p q <;>
          cases pathLeErr? p q <;>
            simp [List.findSome?]
  · intro c q
    unfold cookieComparisonOnQ cookieComparisonClaimOrder firstFailure
    simp only [List.findSome?]
    split_ifs <;> simp_all
  · intro p b
    refine ⟨?_, ?_, ?_, ?_⟩ <;> intro h <;>
      simp [pathGeErr?, pathLeErr?, pathGtErr?, pathLtErr?, h]
  · intro c b
    refine ⟨?_, ?_, ?_, ?_⟩ <;> intro h1 h2 h3 h4 <;>
      simp [cookieComparisonOnQ, h1, h2, h3, h4]

/-- Witness for C3: the boundary laws applied to a path validator with
`ge=5` at the value `5` (passes) and to a cookie validator with `gt=10` at
the value `10` (fails with the comparison message). -/
theorem claim_C3_bounds_witness :
    pathGeErr? geOnlyPath 5 = none ∧
    cookieComparisonOnQ scenarioBCfg 10 =
      some { detail := scenarioBCfg.err_compare, status_code := 400 } :=
  ⟨(claim_C3_bounds.2.2.1 geOnlyPath 5).1 rfl,
   (claim_C3_bounds.2.2.2 scenarioBCfg 10).2.2.1 rfl rfl rfl rfl⟩

/-- C4, amended.  When the required policy resolves to not-required and the
value is absent, both validators succeed without evaluating any other rule
(the statement holds for EVERY configuration, in particular whatever the
custom predicate is — so the predicate is never invoked on this path).  The
cookie validator returns the configured default (`None` when no default was
configured).  The header validator, however, returns the canonical empty
string on this path REGARDLESS of any configured default (its `_validate`
ends the absent/empty path with `return value or ""`; default substitution
is left entirely to the framework's parameter injection). -/
theorem claim_C4_absent :
    (∀ (c : CookieConfig), c.aliasName ≠ "" → c.is_required = false →
       c.call none = Except.ok (c.default.getD PyValue.pyNone)) ∧
    (∀ (h : HeaderConfig), h.required = false →
       h.validate none = Except.ok "" ∧ h.validate (some "") = Except.ok "") := by
  constructor
  · intro c hc hreq
    have hb : (c.aliasName == "") = false := beq_eq_false_iff_ne.mpr hc
    simp [CookieConfig.call, hb, hreq]
  · intro h hreq
    constructor <;> simp [HeaderConfig.validate, headerRequiredErr?, hreq]

/-- C4 counterexample: `HeaderValidator(default="v1", required=False)`
validating an absent header returns `""`, not the configured default
`"v1"` — the claim's "returns the configured default" is false on the
header validator. -/
theorem claim_C4_counterexample :
    (mkHeaderValidator testCompile
       { default := some (PyValue.str "v1"), required := some false }).map
      (fun h => h.validate none) = Except.ok (Except.ok "") ∧
    ("" : String) ≠ "v1" := by
  constructor
  · rfl
  · decide

/-- Witness for C4: the absent path of a concrete not-required cookie
configuration (returns its `None` default) and of a concrete not-required
header configuration (returns the empty string). -/
theorem claim_C4_absent_witness :
    scenarioBCfg.call none = Except.ok (scenarioBCfg.default.getD PyValue.pyNone) ∧
    (notReqHeaderCfg.validate none = Except.ok "" ∧
     notReqHeaderCfg.validate (some "") = Except.ok "") :=
  ⟨claim_C4_absent.1 scenarioBCfg (by decide) rfl,
   claim_C4_absent.2 notReqHeaderCfg rfl⟩

/-- C5, evaluation at the failing inputs.  In every validator the falsy
branch of `_validate_custom` raises its generic `ValidationError` INSIDE
the `try` whose `except Exception` clause then catches that very exception
and wraps it: the cookie validator (whose own test expects the plain
configured message, "Not admin") produces the configured message wrapped
around itself; the header and path validators produce
`"Custom validation error: "` with nothing after the colon (the `str()` of
the core `ValidationError` is empty), identical to what a predicate
raising an empty-text exception produces — so a falsy return is NOT
reported with the generic custom-validation-failed message, and the falsy
and throwing outcomes are not always distinguishable. -/
theorem claim_C5_custom_eval :
    (mkCookieAssert testCompile
       { aliasName := "user-id",
         validator := some (fun v => CustomResult.ret (v == "admin")),
         on_validator_error_detail := "Not admin" }).map
      (fun c => c.call (some "42")) =
      Except.ok (Except.error { status_code := 400, detail := "Not admin: Not admin" }) ∧
    (mkHeaderValidator testCompile
       { validator := some (fun _ => CustomResult.ret false) }).map
      (fun h => headerCustomErr? h "x") =
      Except.ok (some { detail := "Custom validation error: ", status_code := 400 }) ∧
    (mkHeaderValidator testCompile
       { validator := some (fun _ => CustomResult.exn "") }).map
      (fun h => headerCustomErr? h "x") =
      Except.ok (some { detail := "Custom validation error: ", status_code := 400 }) ∧
    pathCustomErr?
      (mkPathValidator testCompile { validator := some (fun _ => CustomResult.ret false) })
      (PyValue.str "x") =
      some { detail := "Custom validation error: ", status_code := 400 } ∧
    ("Custom validation error: " : String) ≠
      "Custom validation failed for header value \'x\'" := by
  refine ⟨rfl, rfl, rfl, rfl, by decide⟩

/-- C6, amended.  The header and path pattern checks are prefix-anchored
(`re.Pattern.match`): the check passes exactly when the candidate matches
from the start of the string.  The cookie pattern check instead uses
`re.Pattern.search`: it passes when the pattern matches at ANY position
(substring semantics).  Named formats resolve through the built-in tables:
for the cookie validator a known format yields a configuration identical to
the one built from the table's pattern string passed as `regex`; for the
header validator a known format stores the table's pattern compiled
case-insensitively (`re.IGNORECASE`), unlike an explicit `pattern`, which
is compiled without flags. -/
theorem claim_C6_pattern :
    (∀ (h : HeaderConfig) (r : CompiledRegex) (v : String), h.pattern = some r →
       (headerPatternErr? h v = none ↔ re_match r v = true)) ∧
    (∀ (p : PathConfig) (r : CompiledRegex) (s : String), p.pattern = some r →
       (pathPatternErr? p (PyValue.str s) = none ↔ re_match r s = true)) ∧
    (∀ (c : CookieConfig) (r : CompiledRegex) (v : String), c.final_regex = some r →
       (cookiePatternErr? c v = none ↔ re_search r v = true)) ∧
    (∀ (compile : String → Bool → CompiledRegex) (a : CookieArgs) (f p : String),
       a.regex = none → a.pattern = none → a.format = some f → f ≠ "" →
       PRE_BUILT_PATTERNS f = some p → p ≠ "" →
       mkCookieAssert compile a =
         mkCookieAssert compile { a with format := none, regex := some p }) ∧
    (∀ (compile : String → Bool → CompiledRegex) (a : HeaderArgs) (f p : String),
       a.pattern = none → a.format = some f → f ≠ "" → FORMAT_PATTERNS f = some p →
       (mkHeaderValidator compile a).map (fun h => h.pattern) =
         Except.ok (some (compile p true))) := by
  refine ⟨?_, ?_, ?_, ?_, ?_⟩
  · intro h r v hp
    cases hm : re_match r v <;> simp [headerPatternErr?, hp, hm]
  · intro p r s hp
    cases hm : re_match r s <;> simp [pathPatternErr?, hp, hm]
  · intro c r v hp
    cases hm : re_search r v <;> simp [cookiePatternErr?, hp, hm]
  · intro compile a f p hr hp hf hfne htab hpne
    simp [mkCookieAssert, hr, hp, hf, htab, hfne, hpne, pyOrStr, strTruthy]
  · intro compile a f p hp hf hfne htab
    simp [mkHeaderValidator, hp, hf, htab, hfne, strTruthy, Except.map]

/-- C6 counterexample: `CookieAssert(alias="c", regex="abc")` accepts the
cookie value `"xabc"`, in which the pattern matches only at position 1 and
NOT from the start of the string — prefix-anchored semantics would have
rejected it, so the claim is false on the cookie validator. -/
theorem claim_C6_counterexample :
    (mkCookieAssert testCompile { aliasName := "c", regex := some "abc" }).map
      (fun c => c.call (some "xabc")) =
      Except.ok (Except.ok (PyValue.str "xabc")) ∧
    re_match (litRegex "abc") "xabc" = false := by
  constructor
  · rfl
  · decide

/-- Witness for C6: the prefix-anchored header check on a concrete compiled
literal accepting a matching value, the substring cookie check accepting a
value that matches only away from the start, and the format-resolution
equalities at the `uuid4` entries of both tables. -/
theorem claim_C6_pattern_witness :
    (headerPatternErr?
       { notReqHeaderCfg with pattern := some (litRegex "ab") } "abc" = none ↔
       re_match (litRegex "ab") "abc" = true) ∧
    (cookiePatternErr?
       { lenPatCfg with final_regex := some (litRegex "b") } "abc" = none ↔
       re_search (litRegex "b") "abc" = true) ∧
    mkCookieAssert testCompile { aliasName := "c", format := some "uuid4" } =
      mkCookieAssert testCompile
        { aliasName := "c",
          regex := some "^[a-fA-F0-9]\x7b8\x7d-[a-fA-F0-9]\x7b4\x7d-4[a-fA-F0-9]\x7b3\x7d-[89abAB][a-fA-F0-9]\x7b3\x7d-[a-fA-F0-9]\x7b12\x7d$" } ∧
    (mkHeaderValidator testCompile { format := some "uuid4" }).map (fun h => h.pattern) =
      Except.ok (some (testCompile
        "^[0-9a-f]\x7b8\x7d-[0-9a-f]\x7b4\x7d-4[0-9a-f]\x7b3\x7d-[89ab][0-9a-f]\x7b3\x7d-[0-9a-f]\x7b12\x7d$" true)) :=
  ⟨claim_C6_pattern.1 { notReqHeaderCfg with pattern := some (litRegex "ab") }
     (litRegex "ab") "abc" rfl,
   claim_C6_pattern.2.2.1 { lenPatCfg with final_regex := some (litRegex "b") }
     (litRegex "b") "abc" rfl,
   claim_C6_pattern.2.2.2.1 testCompile { aliasName := "c", format := some "uuid4" }
     "uuid4" "^[a-fA-F0-9]\x7b8\x7d-[a-fA-F0-9]\x7b4\x7d-4[a-fA-F0-9]\x7b3\x7d-[89abAB][a-fA-F0-9]\x7b3\x7d-[a-fA-F0-9]\x7b12\x7d$"
     rfl rfl rfl (by decide) rfl (by decide),
   claim_C6_pattern.2.2.2.2 testCompile { format := some "uuid4" }
     "uuid4" "^[0-9a-f]\x7b8\x7d-[0-9a-f]\x7b4\x7d-4[0-9a-f]\x7b3\x7d-[89ab][0-9a-f]\x7b3\x7d-[0-9a-f]\x7b12\x7d$"
     rfl rfl (by decide) rfl⟩

/-- C7, confirmed (spec Scenario B).  A cookie validator constructed with
`gt=10, required=False, default=None` behaves as claimed: no cookie present
returns `None`; `"5"` and `"10"` fail with the 400 comparison message (10
is not strictly greater than 10); `"10.1"` succeeds and returns the number
101/10. -/
theorem claim_C7_scenarioB :
    mkCookieAssert testCompile
      { aliasName := "session", default := some PyValue.pyNone, required := false,
        gt := some 10 } = Except.ok scenarioBCfg ∧
    scenarioBCfg.call none = Except.ok PyValue.pyNone ∧
    scenarioBCfg.call (some "5") =
      Except.error { status_code := 400, detail := "Cookie value fails comparison rules." } ∧
    scenarioBCfg.call (some "10") =
      Except.error { status_code := 400, detail := "Cookie value fails comparison rules." } ∧
    scenarioBCfg.call (some "10.1") = Except.ok (PyValue.num (101 / 10)) := by
  refine ⟨rfl, rfl, ?_, ?_, ?_⟩
  · simp [CookieConfig.call, cookieChainErr?, cookieNumericErr?, cookieNumericValue?,
          cookieComparisonErr?, cookieComparisonOnQ, cookieLengthErr?, cookiePatternErr?,
          cookieCustomErr?, cookieBoundsConfigured, pyFloat_five, scenarioBCfg, cookieRaise]
    decide
  · simp [CookieConfig.call, cookieChainErr?, cookieNumericErr?, cookieNumericValue?,
          cookieComparisonErr?, cookieComparisonOnQ, cookieLengthErr?, cookiePatternErr?,
          cookieCustomErr?, cookieBoundsConfigured, pyFloat_ten, scenarioBCfg, cookieRaise]
  · have hgt : ¬((101 : ℚ) / 10 ≤ 10) := by norm_num
    simp [CookieConfig.call, cookieChainErr?, cookieNumericErr?, cookieNumericValue?,
          cookieComparisonErr?, cookieComparisonOnQ, cookieLengthErr?, cookiePatternErr?,
          cookieCustomErr?, cookieBoundsConfigured, pyFloat_tenPointOne, scenarioBCfg,
          cookieRaise, hgt]

/-- Mapping the success value does not change whether an `Except` is an
error. -/
theorem exceptIsError_map {ε α β : Type} (f : α → β) (x : Except ε α) :
    exceptIsError (x.map f) = exceptIsError x := by
  cases x <;> rfl

/-- A malformed ratio string anywhere in the list makes the
`_parse_aspect_ratios` loop fail. -/
theorem parseRatiosGo_err (r : String) (l : List String)
    (hr : ratio1? r = none) (hm : r ∈ l) :
    exceptIsError (parseRatiosGo l) = true := by
  induction l with
  | nil => cases hm
  | cons x t ih =>
    rcases List.mem_cons.mp hm with h | h
    · subst h
      simp [parseRatiosGo, hr, exceptIsError]
    · have h2 := ih h
      cases hx : ratio1? x with
      | none => simp [parseRatiosGo, hx, exceptIsError]
      | some q =>
        cases hgo : parseRatiosGo t with
        | error e => simp [parseRatiosGo, hx, hgo, Except.map, exceptIsError]
        | ok l2 =>
          rw [hgo] at h2
          simp [exceptIsError] at h2

/-- C8, confirmed.  Misconfiguration is rejected at construction time, as
`ValueError`s from the constructors, before any value is validated: a
truthy pattern together with a truthy named format (cookie and header), an
unknown named-format name (cookie and header), and a malformed
aspect-ratio string anywhere in the configured list (image validator).  In
this embedding a validation function can only be applied to a
successfully-constructed configuration, so none of these misconfigurations
can surface as a runtime validation failure of a request value. -/
theorem claim_C8_construction :
    (∀ (compile : String → Bool → CompiledRegex) (a : CookieArgs),
       strTruthy (pyOrStr a.regex a.pattern) = true → strTruthy a.format = true →
       mkCookieAssert compile a = Except.error ConfigError.patternAndFormat) ∧
    (∀ (compile : String → Bool → CompiledRegex) (a : CookieArgs) (f : String),
       a.format = some f → f ≠ "" → PRE_BUILT_PATTERNS f = none →
       strTruthy (pyOrStr a.regex a.pattern) = false →
       mkCookieAssert compile a = Except.error (ConfigError.unknownFormat f)) ∧
    (∀ (compile : String → Bool → CompiledRegex) (a : HeaderArgs),
       strTruthy a.pattern = true → strTruthy a.format = true →
       mkHeaderValidator compile a = Except.error ConfigError.patternAndFormat) ∧
    (∀ (compile : String → Bool → CompiledRegex) (a : HeaderArgs) (f : String),
       a.format = some f → f ≠ "" → FORMAT_PATTERNS f = none →
       strTruthy a.pattern = false →
       mkHeaderValidator compile a = Except.error (ConfigError.unknownFormat f)) ∧
    (∀ (r : String) (rs : List String), ratio1? r = none → r ∈ rs →
       exceptIsError (parseAspectRatios (some rs)) = true) := by
  refine ⟨?_, ?_, ?_, ?_, ?_⟩
  · intro compile a h1 h2
    simp [mkCookieAssert, h1, h2]
  · intro compile a f hf hfne htab h1
    simp only [strTruthy] at h1
    simp [mkCookieAssert, hf, hfne, htab, h1, strTruthy]
  · intro compile a h1 h2
    simp [mkHeaderValidator, h1, h2]
  · intro compile a f hf hfne htab h1
    simp only [strTruthy] at h1
    simp [mkHeaderValidator, hf, hfne, htab, h1, strTruthy]
  · intro r rs hr hm
    cases rs with
    | nil => cases hm
    | cons x t =>
      show exceptIsError ((parseRatiosGo (x :: t)).map some) = true
      rw [exceptIsError_map]
      exact parseRatiosGo_err r (x :: t) hr hm

/-- Witness for C8: concrete misconfigurations — a cookie and a header
validator given both a pattern and a format, a cookie and a header
validator given the unknown format `"nope"`, and the malformed aspect
ratios `"16:9:1"` (three parts), `"16:0"` (zero height) and `"ab:cd"`
(non-integer parts). -/
theorem claim_C8_construction_witness :
    mkCookieAssert testCompile
      { aliasName := "c", pattern := some "x", format := some "uuid4" } =
      Except.error ConfigError.patternAndFormat ∧
    mkCookieAssert testCompile { aliasName := "c", format := some "nope" } =
      Except.error (ConfigError.unknownFormat "nope") ∧
    mkHeaderValidator testCompile { pattern := some "x", format := some "uuid4" } =
      Except.error ConfigError.patternAndFormat ∧
    mkHeaderValidator testCompile { format := some "nope" } =
      Except.error (ConfigError.unknownFormat "nope") ∧
    exceptIsError (parseAspectRatios (some ["16:9:1"])) = true ∧
    exceptIsError (parseAspectRatios (some ["16:0"])) = true ∧
    exceptIsError (parseAspectRatios (some ["ab:cd"])) = true :=
  ⟨claim_C8_construction.1 testCompile
     { aliasName := "c", pattern := some "x", format := some "uuid4" } (by decide) (by decide),
   claim_C8_construction.2.1 testCompile
     { aliasName := "c", format := some "nope" } "nope" rfl (by decide) rfl (by decide),
   claim_C8_construction.2.2.1 testCompile
     { pattern := some "x", format := some "uuid4" } (by decide) (by decide),
   claim_C8_construction.2.2.2.1 testCompile
     { format := some "nope" } "nope" rfl (by decide) rfl (by decide),
   claim_C8_construction.2.2.2.2 "16:9:1" ["16:9:1"] (by decide) (by decide),
   claim_C8_construction.2.2.2.2 "16:0" ["16:0"] (by decide) (by decide),
   claim_C8_construction.2.2.2.2 "ab:cd" ["ab:cd"] (by decide) (by decide)⟩

/-- C9, confirmed.  Whenever a `CookieAssert` call on a present value
succeeds: with at least one numeric bound configured the returned value is
the float coercion of the cookie string (which must therefore have parsed);
with no numeric bound configured the original string is returned unchanged;
and in either case the length bounds and the (substring-search) pattern
hold of the ORIGINAL string form. -/
theorem claim_C9_coercion :
    ∀ (c : CookieConfig) (v : String) (x : PyValue),
      c.call (some v) = Except.ok x →
      (cookieBoundsConfigured c = true → ∃ q, pyFloat? v = some q ∧ x = PyValue.num q) ∧
      (cookieBoundsConfigured c = false → x = PyValue.str v) ∧
      (∀ m, c.min_length = some m → m ≤ v.length) ∧
      (∀ m, c.max_length = some m → v.length ≤ m) ∧
      (∀ r, c.final_regex = some r → re_search r v = true) := by
  intro c v x h
  unfold CookieConfig.call at h
  by_cases ha : (c.aliasName == "") = true
  · rw [if_pos ha] at h
    exact Except.noConfusion h
  · rw [if_neg ha] at h
    have h' : (match cookieChainErr? c v with
               | some e => Except.error (cookieRaise c e.detail (some e.status_code))
               | none =>
                 Except.ok
                   (match cookieNumericValue? c v with
                    | some q => PyValue.num q
                    | none => PyValue.str v)) = Except.ok x := h
    cases hch : cookieChainErr? c v with
    | some e =>
      rw [hch] at h'
      exact Except.noConfusion h'
    | none =>
      rw [hch] at h'
      have hx : (match cookieNumericValue? c v with
                 | some q => PyValue.num q
                 | none => PyValue.str v) = x := Except.ok.inj h'
      cases e1 : cookieNumericErr? c v <;>
        cases e2 : cookieComparisonErr? c v <;>
          cases e3 : cookieLengthErr? c v <;>
            cases e4 : cookiePatternErr? c v <;>
              cases e5 : cookieCustomErr? c v <;>
                simp only [cookieChainErr?, e1, e2, e3, e4, e5] at hch <;>
                  try exact Option.noConfusion hch
      refine ⟨?_, ?_, ?_, ?_, ?_⟩
      · intro hb
        unfold cookieNumericErr? at e1
        rw [hb] at e1
        simp [Option.isNone_iff_eq_none] at e1
        obtain ⟨q, hq⟩ := Option.ne_none_iff_exists'.mp e1
        refine ⟨q, hq, ?_⟩
        unfold cookieNumericValue? at hx
        rw [hb, if_pos rfl, hq] at hx
        exact hx.symm
      · intro hb
        unfold cookieNumericValue? at hx
        rw [hb] at hx
        simp at hx
        exact hx.symm
      · intro m hm
        unfold cookieLengthErr? at e3
        rw [hm] at e3
        split_ifs at e3
        simp_all
      · intro m hm
        unfold cookieLengthErr? at e3
        rw [hm] at e3
        split_ifs at e3
        simp_all
      · intro r hr
        unfold cookiePatternErr? at e4
        rw [hr] at e4
        simp at e4
        simpa using e4

/-- Witness for C9: a concrete cookie configuration with length and
pattern rules and no numeric bound, whose call on `"abc"` succeeds and
returns the string unchanged; the consequences are instantiated at its
configured rules. -/
theorem claim_C9_coercion_witness :
    lenPatCfg.call (some "abc") = Except.ok (PyValue.str "abc") ∧
    (cookieBoundsConfigured lenPatCfg = false → PyValue.str "abc" = PyValue.str "abc") ∧
    (∀ m, lenPatCfg.min_length = some m → m ≤ ("abc" : String).length) ∧
    (∀ r, lenPatCfg.final_regex = some r → re_search r "abc" = true) :=
  ⟨by decide,
   (claim_C9_coercion lenPatCfg "abc" (PyValue.str "abc") (by decide)).2.1,
   (claim_C9_coercion lenPatCfg "abc" (PyValue.str "abc") (by decide)).2.2.1,
   (claim_C9_coercion lenPatCfg "abc" (PyValue.str "abc") (by decide)).2.2.2.2⟩

/-- C10, confirmed.  In the core `BaseValidator._raise_error`: a falsy
per-failure detail (absent, or the empty string) is replaced by the
instance default error detail, which is resolved by invoking it on the
failing value when it is callable — so an empty override never reaches the
caller; a per-failure status code of `None` falls back to the instance
default, while any other integer (zero included) is used exactly as
given. -/
theorem claim_C10_raise_error :
    ∀ (b : BaseCfg) (value : PyValue) (sc : Option Int) (d : Option ErrDetail),
      (edTruthy d = false →
        raise_error b value sc d =
          { status_code := match sc with | some s => s | none => b.status_code,
            detail := resolveDetail b.error_detail value }) ∧
      (∀ s, (raise_error b value (some s) d).status_code = s) ∧
      ((raise_error b value none d).status_code = b.status_code) := by
  intro b value sc d
  refine ⟨?_, ?_, ?_⟩
  · intro hd
    simp [raise_error, hd]
  · intro s
    simp [raise_error]
  · simp [raise_error]

/-- Witness for C10: an instance whose default error detail is the
callable `pyStr` and whose default status code is 400, raised with the
empty-string override detail and the unusual status code 0: the detail is
the callable resolved on the failing value and the status code is 0 as
given, not the instance default. -/
theorem claim_C10_raise_error_witness :
    edTruthy (some (ErrDetail.strD "")) = false ∧
    raise_error { status_code := 400, error_detail := ErrDetail.fnD pyStr }
        (PyValue.str "bad") (some 0) (some (ErrDetail.strD "")) =
      { status_code := 0, detail := "bad" } :=
  ⟨by decide,
   (claim_C10_raise_error { status_code := 400, error_detail := ErrDetail.fnD pyStr }
      (PyValue.str "bad") (some 0) (some (ErrDetail.strD ""))).1 (by decide)⟩
